import Mathlib

/-!
Verification of the Simple-Amazon-CAPTCHA-Solver recognition/retry core.

The development shallowly embeds the control logic of the repository's three
solver classes:

* `AmazonCaptchaSolver` (src/captcha_solver.py),
* `SeleniumCaptchaSolver` (src/selenium_captcha_solver.py),
* `PlaywrightCaptchaSolver` (src/playwright_captcha_solver.py).

The three classes share the error corrector `_fix_common_errors` verbatim, and
their `solve_captcha` loops are identical except for the branch taken after a
verified submission; the embedding therefore models the loop once, indexed by a
`Variant`.

Strings are modelled as `List Char`.  `Char.isAlphanum` and `Char.toUpper` are
used for Python's `str.isalnum` / `str.upper`; they agree with the Python
functions on ASCII strings, and every string reaching `_fix_common_errors` in
the program is produced by joining EasyOCR fragments restricted to the
allowlist `"ABCDEFGHIJKLMNOPQRSTUVWXYZ0123456789"`, hence is ASCII.

The external automation surface (Selenium driver / Playwright page) and the
OCR engine are modelled as an environment: for each value of the attempt
counter, the environment says whether the challenge input field is present,
whether the image download and the preprocessing succeed, which raw text the
OCR step produces, whether the submission interaction succeeds, and whether the
input field is still present after submission.  Debug artifacts live in an
explicit filesystem state, and every externally visible action is recorded in
an event trace.
-/

namespace Captcha

/-- Python `text.replace(error, correction)` for a single-character pattern and
a single-character replacement: every occurrence of `e` in `s` is replaced by
`r`. -/
def pyReplace (s : List Char) (e r : Char) : List Char :=
  s.map fun c => if c = e then r else c

/-- The substitution table `replacements` of `_fix_common_errors`
(src/captcha_solver.py lines 137-142).  Python dictionaries iterate in
insertion order, so the rules apply in the order `0→O, 1→I, 5→S, 8→B`. -/
def replacements : List (Char × Char) := [('0', 'O'), ('1', 'I'), ('5', 'S'), ('8', 'B')]

/-- `_fix_common_errors` (src/captcha_solver.py lines 132-148): drop every
character that is not alphanumeric, upper-case the remainder, then apply each
substitution rule to the whole string, rules in table order. -/
def fix_common_errors (text : List Char) : List Char :=
  let t := (text.filter Char.isAlphanum).map Char.toUpper
  replacements.foldl (fun s p => pyReplace s p.1 p.2) t

/-- The per-character effect of `fix_common_errors` on a character that
survives the alphanumeric filter: upper-case it, then run it through the four
substitution rules in table order. -/
def fixChar (c : Char) : Char :=
  let u := c.toUpper
  let c0 := if u = '0' then 'O' else u
  let c1 := if c0 = '1' then 'I' else c0
  let c5 := if c1 = '5' then 'S' else c1
  if c5 = '8' then 'B' else c5

theorem fix_eq_map (s : List Char) :
    fix_common_errors s = (s.filter Char.isAlphanum).map fixChar := by
  induction s with
  | nil => rfl
  | cons c cs ih =>
      simp only [fix_common_errors, replacements, pyReplace, List.foldl_cons, List.foldl_nil,
        List.map_map] at ih ⊢
      by_cases h : c.isAlphanum <;> simp [h, List.filter_cons, ih, fixChar]

theorem isAlphanum_toNat_lt {c : Char} (h : c.isAlphanum = true) : c.toNat < 123 := by
  simp only [Char.isAlphanum, Char.isAlpha, Char.isUpper, Char.isLower, Char.isDigit,
    Bool.or_eq_true, Bool.and_eq_true, decide_eq_true_eq] at h
  simp only [Char.toNat, UInt32.toNat]
  rcases h with (⟨h1, h2⟩ | ⟨h1, h2⟩) | ⟨h1, h2⟩ <;>
    · rw [UInt32.le_def, BitVec.le_def] at h2
      exact Nat.lt_of_le_of_lt h2 (by decide)

set_option maxHeartbeats 1600000 in
/-- Characterization of `fixChar` on alphanumeric characters: the result is
still alphanumeric, it is an upper-case letter or a digit, it is none of the
four source digits of the substitution table, and `fixChar` is idempotent on
it. -/
theorem fixChar_spec {c : Char} (h : c.isAlphanum = true) :
    (fixChar c).isAlphanum = true ∧
    ((fixChar c).isUpper || (fixChar c).isDigit) = true ∧
    fixChar c ≠ '0' ∧ fixChar c ≠ '1' ∧ fixChar c ≠ '5' ∧ fixChar c ≠ '8' ∧
    fixChar (fixChar c) = fixChar c := by
  have key : ∀ n : Nat, n < 123 → (Char.ofNat n).isAlphanum = true →
      ((fixChar (Char.ofNat n)).isAlphanum = true ∧
       ((fixChar (Char.ofNat n)).isUpper || (fixChar (Char.ofNat n)).isDigit) = true ∧
       fixChar (Char.ofNat n) ≠ '0' ∧ fixChar (Char.ofNat n) ≠ '1' ∧
       fixChar (Char.ofNat n) ≠ '5' ∧ fixChar (Char.ofNat n) ≠ '8' ∧
       fixChar (fixChar (Char.ofNat n)) = fixChar (Char.ofNat n)) := by decide
  have hb := isAlphanum_toNat_lt h
  have := key c.toNat hb (by rw [Char.ofNat_toNat]; exact h)
  rwa [Char.ofNat_toNat] at this

theorem mem_fix_common_errors {c : Char} {s : List Char}
    (hc : c ∈ fix_common_errors s) :
    ∃ d, d.isAlphanum = true ∧ c = fixChar d := by
  rw [fix_eq_map] at hc
  rcases List.mem_map.mp hc with ⟨d, hd, rfl⟩
  exact ⟨d, (List.mem_filter.mp hd).2, rfl⟩

/-- The error corrector is idempotent. -/
theorem fix_common_errors_idem (s : List Char) :
    fix_common_errors (fix_common_errors s) = fix_common_errors s := by
  have hmem : ∀ c ∈ fix_common_errors s, c.isAlphanum = true := by
    intro c hc
    rcases mem_fix_common_errors hc with ⟨d, hd, rfl⟩
    exact (fixChar_spec hd).1
  conv_lhs => rw [fix_eq_map]
  rw [List.filter_eq_self.mpr hmem]
  rw [fix_eq_map s, List.map_map]
  apply List.map_congr_left
  intro d hd
  simp only [Function.comp_apply]
  exact (fixChar_spec (List.mem_filter.mp hd).2).2.2.2.2.2.2

theorem fix_common_errors_length (s : List Char) :
    (fix_common_errors s).length = (s.filter Char.isAlphanum).length := by
  rw [fix_eq_map, List.length_map]

/-! ## Filesystem, events and the solver state machine -/

/-- Debug artifacts the solvers write below `output_dir`: the raw download
`temp_captcha.png`, the bitmap `preprocessed_captcha.png`, the per-attempt
`captcha_screenshot_{attempt}.png`, and `captcha_manual_intervention.png`. -/
inductive DebugFile where
  | tempCaptcha
  | preprocessed
  | screenshot (attempt : Nat)
  | manualIntervention
deriving DecidableEq

/-- Filesystem state: which debug artifacts currently exist on disk. -/
abbrev FS := List DebugFile

/-- Write (create or overwrite) a file. -/
def insertF (f : DebugFile) (fs : FS) : FS := if f ∈ fs then fs else f :: fs

/-- `os.remove` a file; removing an absent file is a no-op here because
`_cleanup_files` checks `os.path.exists` first. -/
def removeF (f : DebugFile) (fs : FS) : FS := fs.filter fun g => g ≠ f

theorem mem_insertF {f g : DebugFile} {fs : FS} : g ∈ insertF f fs ↔ g = f ∨ g ∈ fs := by
  by_cases h : f ∈ fs <;> simp only [insertF, h, if_true, if_false, List.mem_cons]
  exact ⟨Or.inr, fun hor => hor.elim (fun hg => hg ▸ h) id⟩

theorem mem_removeF {f g : DebugFile} {fs : FS} : g ∈ removeF f fs ↔ g ∈ fs ∧ g ≠ f := by
  simp [removeF]

/-- Externally visible actions of one `solve_captcha` call, in order. -/
inductive Event where
  | detect (attempt : Nat) (present : Bool)
  | downloadAttempt (attempt : Nat) (ok : Bool)
  | writeFile (f : DebugFile)
  | tryDifferentImage (attempt : Nat)
  | submit (text : List Char)
  | verify (attempt : Nat) (stillPresent : Bool)
  | removeFile (f : DebugFile)
deriving DecidableEq

/-- The three solver classes.  Their `solve_captcha` loops are identical except
for what happens after a submission is verified successful (the input field is
gone): `AmazonCaptchaSolver` runs `_cleanup_files` and returns `True`;
`SeleniumCaptchaSolver` calls `self._cleanup_files`, a method that class never
defines, so the `AttributeError` is caught by the enclosing
`except Exception` and the iteration falls through to `attempt += 1`;
`PlaywrightCaptchaSolver` returns `True` without any cleanup. -/
inductive Variant where
  | amazon
  | selenium
  | playwright
deriving DecidableEq

/-- What the external surface and the OCR engine do during the loop iteration
with a given attempt-counter value: whether `find_element(By.ID,
"captchacharacters")` finds the input field, whether `_download_captcha_image`
returns an image, whether `_preprocess_image` returns a bitmap, the raw text
EasyOCR produces (joined fragments, before `_fix_common_errors`), whether the
clear/send-keys/click submission interaction succeeds, and whether the input
field is still present when re-queried after submission. -/
structure AttemptEnv where
  inputPresent : Bool
  downloadOk : Bool
  preprocessOk : Bool
  rawText : List Char
  submitOk : Bool
  stillPresentAfterSubmit : Bool
deriving DecidableEq

/-- Per-instance solver state fixed at construction: whether
`easyocr.Reader` initialized (`self.reader is not None`) and
`save_debug_output`. -/
structure Config where
  readerOk : Bool
  save_debug_output : Bool
deriving DecidableEq

/-- `.solved` models `return True` out of the loop; `.retry` models
`attempt += 1` followed by `continue`. -/
inductive StepOutcome where
  | solved
  | retry
deriving DecidableEq

structure StepResult where
  outcome : StepOutcome
  fs : FS
  events : List Event
deriving DecidableEq

/-- A debug-guarded file write, as in `_download_captcha_image`,
`solve_captcha`'s screenshot, and `_preprocess_image`. -/
def debugWrite (dbg : Bool) (f : DebugFile) (fs : FS) : FS :=
  if dbg then insertF f fs else fs

def debugWriteEv (dbg : Bool) (f : DebugFile) : List Event :=
  if dbg then [Event.writeFile f] else []

/-- `_cleanup_files(attempt, success=True)` (src/captcha_solver.py lines
151-169): a no-op unless `save_debug_output`; otherwise it deletes exactly
`temp_captcha.png`, `preprocessed_captcha.png` and
`captcha_screenshot_{attempt}.png` for the current attempt index. -/
def cleanupFs (dbg : Bool) (a : Nat) (fs : FS) : FS :=
  if dbg then
    removeF DebugFile.tempCaptcha (removeF DebugFile.preprocessed
      (removeF (DebugFile.screenshot a) fs))
  else fs

def cleanupEv (dbg : Bool) (a : Nat) : List Event :=
  if dbg then
    [Event.removeFile DebugFile.tempCaptcha, Event.removeFile DebugFile.preprocessed,
     Event.removeFile (DebugFile.screenshot a)]
  else []

/-- The branch taken once the re-query after submission no longer finds the
input field.  See `Variant` for how the three classes differ here. -/
def successStep (v : Variant) (dbg : Bool) (a : Nat) (fs₃ : FS) (ev₃ : List Event)
    (text : List Char) : StepResult :=
  match v with
  | .amazon =>
      ⟨.solved, cleanupFs dbg a fs₃,
       ev₃ ++ [Event.submit text, Event.verify a false] ++ cleanupEv dbg a⟩
  | .selenium => ⟨.retry, fs₃, ev₃ ++ [Event.submit text, Event.verify a false]⟩
  | .playwright => ⟨.solved, fs₃, ev₃ ++ [Event.submit text, Event.verify a false]⟩

/-- One iteration of the `while attempt < max_attempts` loop of
`solve_captcha` (src/captcha_solver.py lines 180-250), for the iteration whose
attempt counter is `a` and whose external interactions are described by `e`:

* input field absent: log and `return True`;
* download failure: `attempt += 1; continue`;
* on download success with debugging, the raw image and a page screenshot for
  this attempt index are written;
* preprocessing failure: `attempt += 1; continue` (bitmap written first when
  debugging, since `_preprocess_image` only writes after it has a result);
* corrected OCR text shorter than 4 characters: `_try_different_image`, then
  `attempt += 1; continue`;
* a failed submission interaction is caught by the outer `except`:
  `attempt += 1; continue`;
* input still present after submission: `_try_different_image`, then
  `attempt += 1; continue`;
* otherwise the `successStep` of the variant. -/
def attemptStep (v : Variant) (cfg : Config) (e : AttemptEnv) (a : Nat) (fs : FS) :
    StepResult :=
  if e.inputPresent then
    if e.downloadOk then
      let fs₂ := debugWrite cfg.save_debug_output (DebugFile.screenshot a)
        (debugWrite cfg.save_debug_output DebugFile.tempCaptcha fs)
      let ev₂ := [Event.detect a true, Event.downloadAttempt a true] ++
        debugWriteEv cfg.save_debug_output DebugFile.tempCaptcha ++
        debugWriteEv cfg.save_debug_output (DebugFile.screenshot a)
      if e.preprocessOk then
        let fs₃ := debugWrite cfg.save_debug_output DebugFile.preprocessed fs₂
        let ev₃ := ev₂ ++ debugWriteEv cfg.save_debug_output DebugFile.preprocessed
        let text := fix_common_errors e.rawText
        if text.length < 4 then
          ⟨.retry, fs₃, ev₃ ++ [Event.tryDifferentImage a]⟩
        else if e.submitOk then
          if e.stillPresentAfterSubmit then
            ⟨.retry, fs₃,
             ev₃ ++ [Event.submit text, Event.verify a true, Event.tryDifferentImage a]⟩
          else successStep v cfg.save_debug_output a fs₃ ev₃ text
        else ⟨.retry, fs₃, ev₃⟩
      else ⟨.retry, fs₂, ev₂⟩
    else ⟨.retry, fs, [Event.detect a true, Event.downloadAttempt a false]⟩
  else ⟨.solved, fs, [Event.detect a false]⟩

/-- Result of one `solve_captcha` call: the boolean return value, the final
value of the attempt counter, the final filesystem state, and the event
trace. -/
structure RunResult where
  solved : Bool
  attempt : Nat
  fs : FS
  events : List Event
deriving DecidableEq

/-- The `while attempt < max_attempts` loop, run from attempt counter value
`attempt` with `r = max_attempts - attempt` iterations still allowed.  The
counter grows by exactly 1 per iteration, so the loop from counter value
`attempt` executes at most `r` iterations; falling out of the loop returns
`False`. -/
def solveFrom (v : Variant) (cfg : Config) (env : Nat → AttemptEnv) :
    Nat → Nat → FS → RunResult
  | 0, attempt, fs => ⟨false, attempt, fs, []⟩
  | r + 1, attempt, fs =>
    let step := attemptStep v cfg (env attempt) attempt fs
    match step.outcome with
    | .solved => ⟨true, attempt, step.fs, step.events⟩
    | .retry =>
      let rest := solveFrom v cfg env r (attempt + 1) step.fs
      ⟨rest.solved, rest.attempt, rest.fs, step.events ++ rest.events⟩

/-- `solve_captcha(driver, max_attempts)` (src/captcha_solver.py lines
172-254): if EasyOCR failed to initialize, return `False` immediately;
otherwise run the attempt loop with the counter starting at 0. -/
def solve_captcha (v : Variant) (cfg : Config) (env : Nat → AttemptEnv)
    (max_attempts : Nat) (fs₀ : FS) : RunResult :=
  if cfg.readerOk then solveFrom v cfg env max_attempts 0 fs₀
  else ⟨false, 0, fs₀, []⟩

/-- The attempt-counter values at which loop iterations ran, read off the
event trace (each iteration queries the input field exactly once at its
start). -/
def detects (ev : List Event) : List Nat :=
  ev.filterMap fun x =>
    match x with
    | .detect i _ => some i
    | _ => none

/-- The manual-intervention wait loop of `solve_captcha_with_fallback`
(src/captcha_solver.py lines 282-301), under an idealized clock in which the
presence check at elapsed time `t` is instantaneous and each iteration then
sleeps 2 time units: `while time.time() - start_time < max_wait` with
`max_wait = 120`, checking `present t` and sleeping 2 on each pass.  `fuel`
bounds the recursion; since `t` grows by 2 per iteration, `fuel = 60` at
`t = 0` is exact: the fuel can only run out once `t` has already reached the
ceiling 120.  Returns the final boolean and the elapsed times that were
polled. -/
def manualPollAux (present : Nat → Bool) : Nat → Nat → Bool × List Nat
  | _, 0 => (false, [])
  | t, fuel + 1 =>
    if t < 120 then
      if present t then
        let rest := manualPollAux present (t + 2) fuel
        (rest.1, t :: rest.2)
      else (true, [t])
    else (false, [])

structure FallbackResult where
  solved : Bool
  fs : FS
  polls : List Nat
deriving DecidableEq

/-- `solve_captcha_with_fallback(driver, max_attempts)` (src/captcha_solver.py
lines 267-308, a method of `AmazonCaptchaSolver` only): first try
`solve_captcha`; on failure, write the manual-intervention screenshot when
debugging, poll every 2 time units for up to 120 time units for the input
field to disappear, and on success delete that screenshot again. -/
def solve_captcha_with_fallback (cfg : Config) (env : Nat → AttemptEnv)
    (max_attempts : Nat) (fs₀ : FS) (present : Nat → Bool) : FallbackResult :=
  let auto := solve_captcha .amazon cfg env max_attempts fs₀
  if auto.solved then ⟨true, auto.fs, []⟩
  else
    let fs₁ := debugWrite cfg.save_debug_output DebugFile.manualIntervention auto.fs
    let poll := manualPollAux present 0 60
    let fs₂ := if poll.1 && cfg.save_debug_output then
        removeF DebugFile.manualIntervention fs₁
      else fs₁
    ⟨poll.1, fs₂, poll.2⟩

/-! ## Helper lemmas about one loop iteration and about whole runs -/


@[simp] theorem mem_debugWrite {dbg : Bool} {f g : DebugFile} {fs : FS} :
    g ∈ debugWrite dbg f fs ↔ (dbg = true ∧ g = f) ∨ g ∈ fs := by
  cases dbg <;> simp [debugWrite, mem_insertF]

@[simp] theorem mem_debugWriteEv {dbg : Bool} {f : DebugFile} {x : Event} :
    x ∈ debugWriteEv dbg f ↔ dbg = true ∧ x = Event.writeFile f := by
  cases dbg <;> simp [debugWriteEv]

@[simp] theorem mem_cleanupEv {dbg : Bool} {a : Nat} {x : Event} :
    x ∈ cleanupEv dbg a ↔ dbg = true ∧
      (x = Event.removeFile DebugFile.tempCaptcha ∨
       x = Event.removeFile DebugFile.preprocessed ∨
       x = Event.removeFile (DebugFile.screenshot a)) := by
  cases dbg <;> simp [cleanupEv]

@[simp] theorem mem_cleanupFs {dbg : Bool} {a : Nat} {g : DebugFile} {fs : FS} :
    g ∈ cleanupFs dbg a fs ↔ g ∈ fs ∧
      (dbg = true → g ≠ DebugFile.tempCaptcha ∧ g ≠ DebugFile.preprocessed ∧
        g ≠ DebugFile.screenshot a) := by
  cases dbg
  · simp [cleanupFs]
  · simp [cleanupFs, mem_removeF]
    tauto

@[simp] theorem detects_nil : detects [] = [] := rfl

@[simp] theorem detects_append (l₁ l₂ : List Event) :
    detects (l₁ ++ l₂) = detects l₁ ++ detects l₂ := by
  simp [detects]

@[simp] theorem detects_cons_detect (i : Nat) (b : Bool) (l : List Event) :
    detects (Event.detect i b :: l) = i :: detects l := by simp [detects]

@[simp] theorem detects_cons_downloadAttempt (i : Nat) (b : Bool) (l : List Event) :
    detects (Event.downloadAttempt i b :: l) = detects l := by simp [detects]

@[simp] theorem detects_cons_writeFile (f : DebugFile) (l : List Event) :
    detects (Event.writeFile f :: l) = detects l := by simp [detects]

@[simp] theorem detects_cons_tryDifferentImage (i : Nat) (l : List Event) :
    detects (Event.tryDifferentImage i :: l) = detects l := by simp [detects]

@[simp] theorem detects_cons_submit (t : List Char) (l : List Event) :
    detects (Event.submit t :: l) = detects l := by simp [detects]

@[simp] theorem detects_cons_verify (i : Nat) (b : Bool) (l : List Event) :
    detects (Event.verify i b :: l) = detects l := by simp [detects]

@[simp] theorem detects_cons_removeFile (f : DebugFile) (l : List Event) :
    detects (Event.removeFile f :: l) = detects l := by simp [detects]

@[simp] theorem detects_debugWriteEv (dbg : Bool) (f : DebugFile) :
    detects (debugWriteEv dbg f) = [] := by
  cases dbg <;> simp [debugWriteEv, detects]

@[simp] theorem detects_cleanupEv (dbg : Bool) (a : Nat) :
    detects (cleanupEv dbg a) = [] := by
  cases dbg <;> simp [cleanupEv, detects]

set_option maxHeartbeats 800000 in
theorem step_detects (v : Variant) (cfg : Config) (e : AttemptEnv) (a : Nat) (fs : FS) :
    detects (attemptStep v cfg e a fs).events = [a] := by
  cases v <;>
    · simp only [attemptStep, successStep]
      split_ifs <;> simp

set_option maxHeartbeats 800000 in
theorem step_submit (v : Variant) (cfg : Config) (e : AttemptEnv) (a : Nat) (fs : FS)
    {t : List Char} (ht : Event.submit t ∈ (attemptStep v cfg e a fs).events) :
    t = fix_common_errors e.rawText ∧ ¬t.length < 4 := by
  cases v <;>
    · simp only [attemptStep, successStep] at ht
      split_ifs at ht <;> simp_all

end Captcha

namespace Captcha

set_option maxHeartbeats 1000000 in
theorem step_retry_amazon (cfg : Config) (e : AttemptEnv) (a : Nat) (fs : FS)
    (h : (attemptStep .amazon cfg e a fs).outcome = .retry) :
    (∀ f, Event.removeFile f ∉ (attemptStep .amazon cfg e a fs).events) ∧
    (∀ i, Event.verify i false ∉ (attemptStep .amazon cfg e a fs).events) ∧
    (∀ f, (f ∈ fs ∨ Event.writeFile f ∈ (attemptStep .amazon cfg e a fs).events) →
      f ∈ (attemptStep .amazon cfg e a fs).fs) := by
  simp only [attemptStep, successStep] at h ⊢
  split_ifs at h ⊢ <;> (simp_all; try tauto)

set_option maxHeartbeats 1000000 in
theorem step_verify_false_amazon (cfg : Config) (e : AttemptEnv) (a i : Nat) (fs : FS)
    (ht : Event.verify i false ∈ (attemptStep .amazon cfg e a fs).events) :
    (attemptStep .amazon cfg e a fs).outcome = .solved ∧ i = a ∧
    (cfg.save_debug_output = true →
      DebugFile.tempCaptcha ∉ (attemptStep .amazon cfg e a fs).fs ∧
      DebugFile.preprocessed ∉ (attemptStep .amazon cfg e a fs).fs ∧
      DebugFile.screenshot a ∉ (attemptStep .amazon cfg e a fs).fs) ∧
    (∀ f, (f ∈ fs ∨ Event.writeFile f ∈ (attemptStep .amazon cfg e a fs).events) →
      f ≠ DebugFile.tempCaptcha → f ≠ DebugFile.preprocessed →
      f ≠ DebugFile.screenshot a → f ∈ (attemptStep .amazon cfg e a fs).fs) := by
  simp only [attemptStep, successStep] at ht ⊢
  split_ifs at ht ⊢ <;> (simp_all; try tauto)

set_option maxHeartbeats 1000000 in
theorem step_no_remove_pw (cfg : Config) (e : AttemptEnv) (a : Nat) (fs : FS) (f : DebugFile) :
    Event.removeFile f ∉ (attemptStep .playwright cfg e a fs).events := by
  simp only [attemptStep, successStep]
  split_ifs <;> simp

end Captcha

namespace Captcha

theorem solveFrom_zero (v : Variant) (cfg : Config) (env : Nat → AttemptEnv)
    (a : Nat) (fs : FS) : solveFrom v cfg env 0 a fs = ⟨false, a, fs, []⟩ := rfl

theorem solveFrom_succ_solved {v : Variant} {cfg : Config} {env : Nat → AttemptEnv}
    {r a : Nat} {fs : FS}
    (h : (attemptStep v cfg (env a) a fs).outcome = .solved) :
    solveFrom v cfg env (r + 1) a fs =
      ⟨true, a, (attemptStep v cfg (env a) a fs).fs,
       (attemptStep v cfg (env a) a fs).events⟩ := by
  simp only [solveFrom]
  rw [h]

theorem solveFrom_succ_retry {v : Variant} {cfg : Config} {env : Nat → AttemptEnv}
    {r a : Nat} {fs : FS}
    (h : (attemptStep v cfg (env a) a fs).outcome = .retry) :
    solveFrom v cfg env (r + 1) a fs =
      ⟨(solveFrom v cfg env r (a + 1) (attemptStep v cfg (env a) a fs).fs).solved,
       (solveFrom v cfg env r (a + 1) (attemptStep v cfg (env a) a fs).fs).attempt,
       (solveFrom v cfg env r (a + 1) (attemptStep v cfg (env a) a fs).fs).fs,
       (attemptStep v cfg (env a) a fs).events ++
         (solveFrom v cfg env r (a + 1) (attemptStep v cfg (env a) a fs).fs).events⟩ := by
  simp only [solveFrom]
  rw [h]

theorem run_detects (v : Variant) (cfg : Config) (env : Nat → AttemptEnv) :
    ∀ (r a : Nat) (fs : FS),
      ∃ k ≤ r, detects (solveFrom v cfg env r a fs).events = List.range' a k ∧
        (solveFrom v cfg env r a fs).attempt ≤ a + r := by
  intro r
  induction r with
  | zero =>
      intro a fs
      exact ⟨0, Nat.le_refl 0, by simp [solveFrom_zero, detects], by simp [solveFrom_zero]⟩
  | succ r ih =>
      intro a fs
      cases hout : (attemptStep v cfg (env a) a fs).outcome with
      | solved =>
          rw [solveFrom_succ_solved hout]
          exact ⟨1, by omega, by simp [step_detects, List.range'_succ], by simp⟩
      | retry =>
          rw [solveFrom_succ_retry hout]
          rcases ih (a + 1) (attemptStep v cfg (env a) a fs).fs with ⟨k, hk, hdet, hat⟩
          refine ⟨k + 1, by omega, ?_, ?_⟩
          · simp [step_detects, hdet, List.range'_succ]
          · simp only
            omega

theorem run_submit (v : Variant) (cfg : Config) (env : Nat → AttemptEnv) :
    ∀ (r a : Nat) (fs : FS) (t : List Char),
      Event.submit t ∈ (solveFrom v cfg env r a fs).events →
      ∃ i, t = fix_common_errors ((env i).rawText) ∧ ¬t.length < 4 := by
  intro r
  induction r with
  | zero => intro a fs t ht; simp [solveFrom_zero] at ht
  | succ r ih =>
      intro a fs t ht
      cases hout : (attemptStep v cfg (env a) a fs).outcome with
      | solved =>
          rw [solveFrom_succ_solved hout] at ht
          rcases step_submit v cfg (env a) a fs ht with ⟨h1, h2⟩
          exact ⟨a, h1, h2⟩
      | retry =>
          rw [solveFrom_succ_retry hout] at ht
          simp only [List.mem_append] at ht
          rcases ht with ht | ht
          · rcases step_submit v cfg (env a) a fs ht with ⟨h1, h2⟩
            exact ⟨a, h1, h2⟩
          · exact ih (a + 1) (attemptStep v cfg (env a) a fs).fs t ht

theorem run_failed_amazon (cfg : Config) (env : Nat → AttemptEnv) :
    ∀ (r a : Nat) (fs : FS),
      (solveFrom .amazon cfg env r a fs).solved = false →
      (∀ f, Event.removeFile f ∉ (solveFrom .amazon cfg env r a fs).events) ∧
      (∀ f, (f ∈ fs ∨ Event.writeFile f ∈ (solveFrom .amazon cfg env r a fs).events) →
        f ∈ (solveFrom .amazon cfg env r a fs).fs) := by
  intro r
  induction r with
  | zero =>
      intro a fs _
      rw [solveFrom_zero]
      constructor
      · intro f; simp
      · intro f hf
        rcases hf with hf | hf
        · exact hf
        · simp at hf
  | succ r ih =>
      intro a fs hsolved
      cases hout : (attemptStep .amazon cfg (env a) a fs).outcome with
      | solved => rw [solveFrom_succ_solved hout] at hsolved; simp at hsolved
      | retry =>
          rw [solveFrom_succ_retry hout] at hsolved ⊢
          simp only at hsolved
          rcases step_retry_amazon cfg (env a) a fs hout with ⟨hnr, _, hpres⟩
          rcases ih (a + 1) (attemptStep .amazon cfg (env a) a fs).fs hsolved with ⟨ihnr, ihpres⟩
          constructor
          · intro f
            simp only [List.mem_append]
            rintro (hf | hf)
            · exact hnr f hf
            · exact ihnr f hf
          · intro f hf
            apply ihpres
            simp only [List.mem_append] at hf
            rcases hf with hf | hf | hf
            · exact Or.inl (hpres f (Or.inl hf))
            · exact Or.inl (hpres f (Or.inr hf))
            · exact Or.inr hf

theorem run_verify_false_amazon (cfg : Config) (env : Nat → AttemptEnv) :
    ∀ (r a i : Nat) (fs : FS),
      Event.verify i false ∈ (solveFrom .amazon cfg env r a fs).events →
      cfg.save_debug_output = true →
      (DebugFile.tempCaptcha ∉ (solveFrom .amazon cfg env r a fs).fs ∧
       DebugFile.preprocessed ∉ (solveFrom .amazon cfg env r a fs).fs ∧
       DebugFile.screenshot i ∉ (solveFrom .amazon cfg env r a fs).fs) ∧
      (∀ f, (f ∈ fs ∨ Event.writeFile f ∈ (solveFrom .amazon cfg env r a fs).events) →
        f ≠ DebugFile.tempCaptcha → f ≠ DebugFile.preprocessed →
        f ≠ DebugFile.screenshot i → f ∈ (solveFrom .amazon cfg env r a fs).fs) := by
  intro r
  induction r with
  | zero => intro a i fs ht; simp [solveFrom_zero] at ht
  | succ r ih =>
      intro a i fs ht hdbg
      cases hout : (attemptStep .amazon cfg (env a) a fs).outcome with
      | solved =>
          rw [solveFrom_succ_solved hout] at ht ⊢
          rcases step_verify_false_amazon cfg (env a) a i fs ht with ⟨_, hia, hclean, hpres⟩
          subst hia
          refine ⟨?_, ?_⟩
          · exact hclean hdbg
          · intro f hf h1 h2 h3
            exact hpres f hf h1 h2 h3
      | retry =>
          rw [solveFrom_succ_retry hout] at ht ⊢
          rcases step_retry_amazon cfg (env a) a fs hout with ⟨_, hnv, hpres⟩
          simp only [List.mem_append] at ht
          rcases ht with ht | ht
          · exact absurd ht (hnv i)
          · rcases ih (a + 1) i (attemptStep .amazon cfg (env a) a fs).fs ht hdbg with
              ⟨ihclean, ihpres⟩
            refine ⟨ihclean, ?_⟩
            intro f hf h1 h2 h3
            apply ihpres f _ h1 h2 h3
            simp only [List.mem_append] at hf
            rcases hf with hf | hf | hf
            · exact Or.inl (hpres f (Or.inl hf))
            · exact Or.inl (hpres f (Or.inr hf))
            · exact Or.inr hf

theorem run_no_remove_pw (cfg : Config) (env : Nat → AttemptEnv) :
    ∀ (r a : Nat) (fs : FS) (f : DebugFile),
      Event.removeFile f ∉ (solveFrom .playwright cfg env r a fs).events := by
  intro r
  induction r with
  | zero => intro a fs f; simp [solveFrom_zero]
  | succ r ih =>
      intro a fs f
      cases hout : (attemptStep .playwright cfg (env a) a fs).outcome with
      | solved =>
          rw [solveFrom_succ_solved hout]
          exact step_no_remove_pw cfg (env a) a fs f
      | retry =>
          rw [solveFrom_succ_retry hout]
          simp only [List.mem_append]
          rintro (hf | hf)
          · exact step_no_remove_pw cfg (env a) a fs f hf
          · exact ih (a + 1) (attemptStep .playwright cfg (env a) a fs).fs f hf

theorem manualPollAux_spec (present : Nat → Bool) :
    ∀ (fuel t : Nat), 120 ≤ t + 2 * fuel →
      ((manualPollAux present t fuel).1 = true ↔
        ∃ k, 2 * k + t < 120 ∧ present (2 * k + t) = false) ∧
      (∀ x ∈ (manualPollAux present t fuel).2, x < 120) := by
  intro fuel
  induction fuel with
  | zero =>
      intro t hbound
      simp only [manualPollAux]
      constructor
      · constructor
        · intro h; exact absurd h (by simp)
        · rintro ⟨k, hk, _⟩; omega
      · intro x hx; simp at hx
  | succ fuel ih =>
      intro t hbound
      simp only [manualPollAux]
      by_cases ht : t < 120
      · rw [if_pos ht]
        cases hp : present t with
        | true =>
            rw [if_pos rfl]
            rcases ih (t + 2) (by omega) with ⟨ihiff, ihpolls⟩
            constructor
            · simp only
              rw [ihiff]
              constructor
              · rintro ⟨k, hk, hpk⟩
                refine ⟨k + 1, by omega, ?_⟩
                have harg : 2 * (k + 1) + t = 2 * k + (t + 2) := by omega
                rw [harg]
                exact hpk
              · rintro ⟨k, hk, hpk⟩
                cases k with
                | zero => simp at hpk; rw [hpk] at hp; exact absurd hp (by simp)
                | succ k =>
                    refine ⟨k, by omega, ?_⟩
                    have harg : 2 * k + (t + 2) = 2 * (k + 1) + t := by omega
                    rw [harg]
                    exact hpk
            · intro x hx
              simp only [List.mem_cons] at hx
              rcases hx with rfl | hx
              · exact ht
              · exact ihpolls x hx
        | false =>
            rw [if_neg (by simp)]
            constructor
            · simp only
              constructor
              · intro _; exact ⟨0, by omega, by simpa using hp⟩
              · intro _; trivial
            · intro x hx
              simp only [List.mem_singleton] at hx
              subst hx
              exact ht
      · rw [if_neg ht]
        constructor
        · constructor
          · intro h; exact absurd h (by simp)
          · rintro ⟨k, hk, _⟩; omega
        · intro x hx; simp at hx

theorem fix_output_chars {s : List Char} {c : Char} (hc : c ∈ fix_common_errors s) :
    (c.isUpper || c.isDigit) = true ∧ c ≠ '0' ∧ c ≠ '1' ∧ c ≠ '5' ∧ c ≠ '8' := by
  rcases mem_fix_common_errors hc with ⟨d, hd, rfl⟩
  have h := fixChar_spec hd
  exact ⟨h.2.1, h.2.2.1, h.2.2.2.1, h.2.2.2.2.1, h.2.2.2.2.2.1⟩

/-! ## The claims -/

/-- Claim C5: the error corrector is idempotent:
`correct(correct(s)) == correct(s)` for every string `s`, where `correct` is
`_fix_common_errors` (non-alphanumeric removal, upper-casing, then the ordered
substitution table `0→O, 1→I, 5→S, 8→B` applied rule by rule over the whole
string). -/
theorem c5_error_corrector_idempotent (s : List Char) :
    fix_common_errors (fix_common_errors s) = fix_common_errors s :=
  fix_common_errors_idem s

/-- Claim C6: the error corrector matches the worked examples of the
specification: `correct("A B-C1") = correct("ABC1") = "ABCI"` and
`correct("0851") = "OBSI"`, and the output length always equals the number of
alphanumeric characters of the input. -/
theorem c6_error_corrector_examples :
    fix_common_errors "A B-C1".data = fix_common_errors "ABC1".data ∧
    fix_common_errors "ABC1".data = "ABCI".data ∧
    fix_common_errors "0851".data = "OBSI".data ∧
    ∀ s : List Char, (fix_common_errors s).length = (s.filter Char.isAlphanum).length :=
  ⟨by decide, by decide, by decide, fix_common_errors_length⟩

/-- Claim C10: every character the error corrector outputs is an upper-case
ASCII letter or an ASCII digit and is none of `0`, `1`, `5`, `8`; consequently
every text a `solve_captcha` run submits to the external surface (the
`Event.submit` events of its trace) contains none of those four digits, so a
challenge whose answer contains one of them cannot be answered. -/
theorem c10_corrected_text_alphabet (s : List Char) (v : Variant) (cfg : Config)
    (env : Nat → AttemptEnv) (m : Nat) (fs₀ : FS) :
    (∀ c ∈ fix_common_errors s,
      (c.isUpper || c.isDigit) = true ∧ c ≠ '0' ∧ c ≠ '1' ∧ c ≠ '5' ∧ c ≠ '8') ∧
    (∀ t, Event.submit t ∈ (solve_captcha v cfg env m fs₀).events →
      ∀ c ∈ t, (c.isUpper || c.isDigit) = true ∧ c ≠ '0' ∧ c ≠ '1' ∧ c ≠ '5' ∧ c ≠ '8') := by
  constructor
  · intro c hc
    exact fix_output_chars hc
  · intro t ht c hc
    by_cases hr : cfg.readerOk
    · simp only [solve_captcha, hr, if_true] at ht
      rcases run_submit v cfg env m 0 fs₀ t ht with ⟨i, rfl, _⟩
      exact fix_output_chars hc
    · simp only [solve_captcha, hr, if_false] at ht
      simp at ht

/-- Witness for C10 at a concrete input: the corrected form of `"0851"`
contains the character `O`, which satisfies the alphabet property. -/
theorem c10_corrected_text_alphabet_witness :
    ('O'.isUpper || 'O'.isDigit) = true ∧ 'O' ≠ '0' ∧ 'O' ≠ '1' ∧ 'O' ≠ '5' ∧ 'O' ≠ '8' :=
  (c10_corrected_text_alphabet "0851".data .amazon ⟨true, false⟩
    (fun _ => ⟨false, false, false, [], false, false⟩) 3 []).1 'O' (by decide)

/-- Claim C4: if EasyOCR failed to initialize at construction
(`self.reader is None`), every `solve_captcha` call returns `False`
immediately, with the attempt counter still 0, no filesystem change and an
empty event trace — in particular no image acquisition, preprocessing or
recognition happens, for any `max_attempts`. -/
theorem c4_engine_unavailable_short_circuit (v : Variant) (d : Bool)
    (env : Nat → AttemptEnv) (m : Nat) (fs₀ : FS) :
    solve_captcha v ⟨false, d⟩ env m fs₀ = ⟨false, 0, fs₀, []⟩ := by
  simp [solve_captcha]

/-- Claim C7: if the challenge input field is absent at the first `Detecting`
query, `solve_captcha` returns `True` immediately: the attempt counter is
still 0, the filesystem is unchanged, the trace is the single detection event,
and in particular no image download was performed. -/
theorem c7_absent_input_vacuous_solve (v : Variant) (cfg : Config)
    (env : Nat → AttemptEnv) (m : Nat) (fs₀ : FS)
    (hr : cfg.readerOk = true) (hm : 0 < m)
    (habs : (env 0).inputPresent = false) :
    solve_captcha v cfg env m fs₀ = ⟨true, 0, fs₀, [Event.detect 0 false]⟩ ∧
    ∀ i b, Event.downloadAttempt i b ∉ (solve_captcha v cfg env m fs₀).events := by
  cases m with
  | zero => omega
  | succ mm =>
      have hstep : attemptStep v cfg (env 0) 0 fs₀ =
          ⟨StepOutcome.solved, fs₀, [Event.detect 0 false]⟩ := by
        simp [attemptStep, habs]
      have heq : solve_captcha v cfg env (mm + 1) fs₀ =
          ⟨true, 0, fs₀, [Event.detect 0 false]⟩ := by
        simp only [solve_captcha, hr, if_true]
        rw [solveFrom_succ_solved (by rw [hstep])]
        rw [hstep]
      refine ⟨heq, ?_⟩
      intro i b
      rw [heq]
      simp

/-- Witness for C7: a run whose environment reports the input field absent at
attempt 0 solves vacuously with an unchanged filesystem. -/
theorem c7_absent_input_vacuous_solve_witness :
    solve_captcha .amazon ⟨true, true⟩
        (fun _ => ⟨false, true, true, "ABCD".data, true, false⟩) 3 [] =
      ⟨true, 0, [], [Event.detect 0 false]⟩ :=
  (c7_absent_input_vacuous_solve .amazon ⟨true, true⟩
    (fun _ => ⟨false, true, true, "ABCD".data, true, false⟩) 3 []
    (by decide) (by decide) (by decide)).1

/-- Claim C2: the attempt counter starts at 0 and increases by exactly 1 per
loop iteration — the iteration indices recorded in the trace are
`0, 1, …, k-1` for some `k ≤ max_attempts` — and the final counter value never
exceeds `max_attempts`, so at most `max_attempts` attempt cycles run before
the solver returns. -/
theorem c2_attempt_counter_bounded (v : Variant) (cfg : Config)
    (env : Nat → AttemptEnv) (m : Nat) (fs₀ : FS) (_hm : 0 < m) :
    (solve_captcha v cfg env m fs₀).attempt ≤ m ∧
    ∃ k ≤ m, detects (solve_captcha v cfg env m fs₀).events = List.range k := by
  by_cases hr : cfg.readerOk
  · simp only [solve_captcha, hr, if_true]
    rcases run_detects v cfg env m 0 fs₀ with ⟨k, hk, hdet, hat⟩
    refine ⟨by simpa using hat, k, hk, ?_⟩
    rw [hdet, List.range_eq_range']
  · simp only [solve_captcha, hr, if_false]
    exact ⟨Nat.zero_le m, 0, Nat.zero_le m, by simp⟩

/-- Witness for C2: a run that exhausts its three attempts has final counter 3
and iteration indices `[0, 1, 2]`. -/
theorem c2_attempt_counter_bounded_witness :
    (solve_captcha .amazon ⟨true, false⟩
      (fun _ => ⟨true, false, false, [], false, false⟩) 3 []).attempt ≤ 3 ∧
    ∃ k ≤ 3, detects (solve_captcha .amazon ⟨true, false⟩
      (fun _ => ⟨true, false, false, [], false, false⟩) 3 []).events = List.range k :=
  c2_attempt_counter_bounded .amazon ⟨true, false⟩
    (fun _ => ⟨true, false, false, [], false, false⟩) 3 [] (by decide)

/-- Claim C3: in an attempt whose corrected OCR text is shorter than 4
characters, no text is submitted during that iteration, a fresh challenge
image is requested (`_try_different_image`) before the counter increments, and
the loop retries from the next counter value; moreover no run ever submits a
text shorter than 4 characters. -/
theorem c3_short_text_never_submitted (v : Variant) (cfg : Config)
    (env : Nat → AttemptEnv) (r a : Nat) (fs : FS)
    (h1 : (env a).inputPresent = true) (h2 : (env a).downloadOk = true)
    (h3 : (env a).preprocessOk = true)
    (h4 : (fix_common_errors (env a).rawText).length < 4) :
    (∀ t, Event.submit t ∉ (attemptStep v cfg (env a) a fs).events) ∧
    Event.tryDifferentImage a ∈ (attemptStep v cfg (env a) a fs).events ∧
    (attemptStep v cfg (env a) a fs).outcome = .retry ∧
    solveFrom v cfg env (r + 1) a fs =
      ⟨(solveFrom v cfg env r (a + 1) (attemptStep v cfg (env a) a fs).fs).solved,
       (solveFrom v cfg env r (a + 1) (attemptStep v cfg (env a) a fs).fs).attempt,
       (solveFrom v cfg env r (a + 1) (attemptStep v cfg (env a) a fs).fs).fs,
       (attemptStep v cfg (env a) a fs).events ++
         (solveFrom v cfg env r (a + 1) (attemptStep v cfg (env a) a fs).fs).events⟩ ∧
    (∀ (m : Nat) (fs₀ : FS) (t : List Char),
      Event.submit t ∈ (solve_captcha v cfg env m fs₀).events → 4 ≤ t.length) := by
  have hstep : attemptStep v cfg (env a) a fs =
      ⟨StepOutcome.retry,
       debugWrite cfg.save_debug_output DebugFile.preprocessed
         (debugWrite cfg.save_debug_output (DebugFile.screenshot a)
           (debugWrite cfg.save_debug_output DebugFile.tempCaptcha fs)),
       [Event.detect a true, Event.downloadAttempt a true] ++
         debugWriteEv cfg.save_debug_output DebugFile.tempCaptcha ++
         debugWriteEv cfg.save_debug_output (DebugFile.screenshot a) ++
         debugWriteEv cfg.save_debug_output DebugFile.preprocessed ++
         [Event.tryDifferentImage a]⟩ := by
    simp [attemptStep, h1, h2, h3, h4]
  refine ⟨?_, ?_, ?_, ?_, ?_⟩
  · intro t
    rw [hstep]
    simp
  · rw [hstep]
    simp
  · rw [hstep]
  · exact solveFrom_succ_retry (by rw [hstep])
  · intro m fs₀ t ht
    by_cases hr : cfg.readerOk
    · simp only [solve_captcha, hr, if_true] at ht
      rcases run_submit v cfg env m 0 fs₀ t ht with ⟨i, _, hlen⟩
      omega
    · simp only [solve_captcha, hr, if_false] at ht
      simp at ht

/-- Witness for C3: with raw OCR text `"AB"` the corrected text has length 2,
so attempt 0 requests a fresh image instead of submitting. -/
theorem c3_short_text_never_submitted_witness :
    Event.tryDifferentImage 0 ∈
      (attemptStep .amazon ⟨true, false⟩
        ((fun _ => ⟨true, true, true, "AB".data, true, false⟩ : Nat → AttemptEnv) 0) 0 []).events :=
  (c3_short_text_never_submitted .amazon ⟨true, false⟩
    (fun _ => ⟨true, true, true, "AB".data, true, false⟩) 2 0 []
    (by decide) (by decide) (by decide) (by decide)).2.1

/-- Claim C1: once an iteration of `AmazonCaptchaSolver.solve_captcha` has
submitted the corrected text, re-querying decides the outcome: if the input
field is gone, the call returns `True` with the current counter value; if it
is still present, a fresh image is requested (`_try_different_image`), the
counter increments and the loop retries.  The third conjunct exhibits the
defect this claim uncovers in `SeleniumCaptchaSolver.solve_captcha`: its
success branch calls the nonexistent method `self._cleanup_files`, the
`AttributeError` is swallowed by the outer `except`, and even an environment
in which every submission verifies successfully yields `False` after
exhausting all attempts. -/
theorem c1_verify_after_submit (cfg : Config) (env : Nat → AttemptEnv)
    (r a : Nat) (fs : FS)
    (h1 : (env a).inputPresent = true) (h2 : (env a).downloadOk = true)
    (h3 : (env a).preprocessOk = true)
    (h4 : ¬(fix_common_errors (env a).rawText).length < 4)
    (h5 : (env a).submitOk = true) :
    ((env a).stillPresentAfterSubmit = false →
      (solveFrom .amazon cfg env (r + 1) a fs).solved = true ∧
      (solveFrom .amazon cfg env (r + 1) a fs).attempt = a) ∧
    ((env a).stillPresentAfterSubmit = true →
      Event.tryDifferentImage a ∈ (attemptStep .amazon cfg (env a) a fs).events ∧
      solveFrom .amazon cfg env (r + 1) a fs =
        ⟨(solveFrom .amazon cfg env r (a + 1) (attemptStep .amazon cfg (env a) a fs).fs).solved,
         (solveFrom .amazon cfg env r (a + 1) (attemptStep .amazon cfg (env a) a fs).fs).attempt,
         (solveFrom .amazon cfg env r (a + 1) (attemptStep .amazon cfg (env a) a fs).fs).fs,
         (attemptStep .amazon cfg (env a) a fs).events ++
           (solveFrom .amazon cfg env r (a + 1)
             (attemptStep .amazon cfg (env a) a fs).fs).events⟩) ∧
    (solve_captcha .selenium ⟨true, false⟩
        (fun _ => ⟨true, true, true, "ABCD".data, true, false⟩) 3 []).solved = false := by
  refine ⟨?_, ?_, by decide⟩
  · intro hsp
    have hout : (attemptStep .amazon cfg (env a) a fs).outcome = .solved := by
      simp [attemptStep, successStep, h1, h2, h3, h4, h5, hsp]
    rw [solveFrom_succ_solved hout]
    exact ⟨rfl, rfl⟩
  · intro hsp
    have hout : (attemptStep .amazon cfg (env a) a fs).outcome = .retry := by
      simp [attemptStep, successStep, h1, h2, h3, h4, h5, hsp]
    constructor
    · simp [attemptStep, successStep, h1, h2, h3, h4, h5, hsp]
    · exact solveFrom_succ_retry hout

/-- Witness for C1: an environment whose first submission verifies
successfully makes the Amazon-variant run return `True` at counter 0. -/
theorem c1_verify_after_submit_witness :
    (solveFrom .amazon ⟨true, false⟩
      (fun _ => ⟨true, true, true, "ABCD".data, true, false⟩) 3 0 []).solved = true :=
  ((c1_verify_after_submit ⟨true, false⟩
      (fun _ => ⟨true, true, true, "ABCD".data, true, false⟩) 2 0 []
      (by decide) (by decide) (by decide) (by decide) (by decide)).1 (by decide)).1

/-- Counterexample to C8 as stated: the claim restricts the manual fallback to
`Failed` reached **through attempt exhaustion**, but the code also runs it
after the engine-unavailable short-circuit.  With `self.reader is None`,
`solve_captcha` returns `False` at once — the attempt counter is still 0 and
no attempt cycle ran (empty trace) — and `solve_captcha_with_fallback`
nevertheless polls the external surface (here at instants 0 and 2, where the
input field disappears). -/
theorem c8_manual_fallback_counterexample :
    (solve_captcha .amazon ⟨false, false⟩
      (fun _ => ⟨true, true, true, "ABCD".data, true, false⟩) 3 []).solved = false ∧
    (solve_captcha .amazon ⟨false, false⟩
      (fun _ => ⟨true, true, true, "ABCD".data, true, false⟩) 3 []).attempt = 0 ∧
    (solve_captcha .amazon ⟨false, false⟩
      (fun _ => ⟨true, true, true, "ABCD".data, true, false⟩) 3 []).events = [] ∧
    (solve_captcha_with_fallback ⟨false, false⟩
      (fun _ => ⟨true, true, true, "ABCD".data, true, false⟩) 3 []
      (fun t => decide (t < 2))).polls = [0, 2] := by
  refine ⟨by decide, by decide, by decide, by decide⟩

/-- Claim C8, amended: the manual fallback runs exactly when the automated
phase fails — after attempt exhaustion or after the engine-unavailable
short-circuit — and never when `solve_captcha` succeeds, in which case no
polling happens at all.  After a failure it polls the external surface every
2 time units under a ceiling of 120 time units: the outcome is `True` exactly
when the input field is absent at one of the instants `0, 2, …, 118`, and
every polled instant lies below the ceiling, so no polling occurs past it. -/
theorem c8_manual_fallback_poll (cfg : Config) (env : Nat → AttemptEnv)
    (m : Nat) (fs₀ : FS) (present : Nat → Bool) :
    ((solve_captcha .amazon cfg env m fs₀).solved = true →
      (solve_captcha_with_fallback cfg env m fs₀ present).solved = true ∧
      (solve_captcha_with_fallback cfg env m fs₀ present).polls = []) ∧
    ((solve_captcha .amazon cfg env m fs₀).solved = false →
      ((solve_captcha_with_fallback cfg env m fs₀ present).solved = true ↔
        ∃ k < 60, present (2 * k) = false) ∧
      (∀ x ∈ (solve_captcha_with_fallback cfg env m fs₀ present).polls, x < 120)) := by
  constructor
  · intro h
    constructor <;> simp [solve_captcha_with_fallback, h]
  · intro h
    rcases manualPollAux_spec present 60 0 (by omega) with ⟨hiff, hpolls⟩
    constructor
    · simp only [solve_captcha_with_fallback, h, Bool.false_eq_true, if_false]
      rw [hiff]
      constructor
      · rintro ⟨k, hk, hp⟩
        exact ⟨k, by omega, by simpa using hp⟩
      · rintro ⟨k, hk, hp⟩
        exact ⟨k, by omega, by simpa using hp⟩
    · intro x hx
      apply hpolls
      simpa [solve_captcha_with_fallback, h] using hx

/-- Witness for C8: with EasyOCR unavailable the automated phase fails, and a
challenge that an out-of-band actor resolves at time 10 makes the fallback
succeed. -/
theorem c8_manual_fallback_poll_witness :
    (solve_captcha_with_fallback ⟨false, false⟩
      (fun _ => ⟨true, false, false, [], false, false⟩) 3 []
      (fun t => decide (t < 10))).solved = true :=
  ((c8_manual_fallback_poll ⟨false, false⟩
      (fun _ => ⟨true, false, false, [], false, false⟩) 3 []
      (fun t => decide (t < 10))).2 (by decide)).1.mpr ⟨5, by decide, by decide⟩

/-- Counterexample to C9 as stated: with debugging enabled, a run whose
attempt 0 fails verification and whose attempt 1 succeeds returns `True`
(Solved via automated attempts), yet the per-attempt screenshot of attempt 0
was written and is still on disk afterwards — the debug artifacts are not all
removed on `Solved`. -/
theorem c9_cleanup_counterexample :
    (solve_captcha .amazon ⟨true, true⟩
      (fun a => if a = 0 then ⟨true, true, true, "ABCD".data, true, true⟩
                else ⟨true, true, true, "ABCD".data, true, false⟩) 3 []).solved = true ∧
    Event.writeFile (DebugFile.screenshot 0) ∈
      (solve_captcha .amazon ⟨true, true⟩
        (fun a => if a = 0 then ⟨true, true, true, "ABCD".data, true, true⟩
                  else ⟨true, true, true, "ABCD".data, true, false⟩) 3 []).events ∧
    DebugFile.screenshot 0 ∈
      (solve_captcha .amazon ⟨true, true⟩
        (fun a => if a = 0 then ⟨true, true, true, "ABCD".data, true, true⟩
                  else ⟨true, true, true, "ABCD".data, true, false⟩) 3 []).fs := by
  refine ⟨by decide, by decide, by decide⟩

/-- Claim C9, amended: on `Failed` nothing is ever removed — every
pre-existing file and every artifact written during the run is still on disk
at the end.  On `Solved` through a verified submission at attempt `i` (with
debugging enabled), `AmazonCaptchaSolver` removes exactly the successful
attempt's artifacts — the raw download, the preprocessed bitmap and screenshot
`i` — while the screenshots written for other attempts remain on disk; the
Playwright variant removes nothing even then. -/
theorem c9_debug_artifact_cleanup (cfg : Config) (env : Nat → AttemptEnv)
    (m : Nat) (fs₀ : FS) :
    ((solve_captcha .amazon cfg env m fs₀).solved = false →
      (∀ f, Event.removeFile f ∉ (solve_captcha .amazon cfg env m fs₀).events) ∧
      (∀ f, (f ∈ fs₀ ∨ Event.writeFile f ∈ (solve_captcha .amazon cfg env m fs₀).events) →
        f ∈ (solve_captcha .amazon cfg env m fs₀).fs)) ∧
    (∀ i, Event.verify i false ∈ (solve_captcha .amazon cfg env m fs₀).events →
      cfg.save_debug_output = true →
      (DebugFile.tempCaptcha ∉ (solve_captcha .amazon cfg env m fs₀).fs ∧
       DebugFile.preprocessed ∉ (solve_captcha .amazon cfg env m fs₀).fs ∧
       DebugFile.screenshot i ∉ (solve_captcha .amazon cfg env m fs₀).fs) ∧
      (∀ n, n ≠ i →
        Event.writeFile (DebugFile.screenshot n) ∈
          (solve_captcha .amazon cfg env m fs₀).events →
        DebugFile.screenshot n ∈ (solve_captcha .amazon cfg env m fs₀).fs)) ∧
    (∀ f, Event.removeFile f ∉ (solve_captcha .playwright cfg env m fs₀).events) := by
  by_cases hr : cfg.readerOk
  · simp only [solve_captcha, hr, if_true]
    refine ⟨?_, ?_, ?_⟩
    · intro hfail
      exact run_failed_amazon cfg env m 0 fs₀ hfail
    · intro i hv hdbg
      rcases run_verify_false_amazon cfg env m 0 i fs₀ hv hdbg with ⟨hclean, hpres⟩
      refine ⟨hclean, ?_⟩
      intro n hn hw
      exact hpres (DebugFile.screenshot n) (Or.inr hw) (by simp) (by simp) (by simp [hn])
    · intro f
      exact run_no_remove_pw cfg env m 0 fs₀ f
  · simp only [solve_captcha, hr, if_false]
    refine ⟨?_, ?_, ?_⟩
    · intro _
      refine ⟨by simp, ?_⟩
      intro f hf
      rcases hf with hf | hf
      · exact hf
      · simp at hf
    · intro i hv
      simp at hv
    · intro f
      simp

/-- Witness for C9 (amended): a run that exhausts its attempts with debugging
enabled removes nothing; in particular the raw download written during attempt
0 is still on disk at the end. -/
theorem c9_debug_artifact_cleanup_witness :
    DebugFile.tempCaptcha ∈
      (solve_captcha .amazon ⟨true, true⟩
        (fun _ => ⟨true, true, true, "AB".data, true, true⟩) 3 []).fs :=
  ((c9_debug_artifact_cleanup ⟨true, true⟩
      (fun _ => ⟨true, true, true, "AB".data, true, true⟩) 3 []).1 (by decide)).2
    DebugFile.tempCaptcha (Or.inr (by decide))

end Captcha
